import Mathlib

/-!
Verification development for `h3mlcore/models/H3RNNSeqClassifier.py`, a thin
wrapper around mxnet's bucketing LSTM sequence classifier.

The wrapper's own logic is shallowly embedded below:
  * the constructor's metric selection (`__init__`, lines 70-75) and device
    context selection (lines 77-83);
  * the dynamic symbol generator `_sym_gen` (lines 86-114) as a symbolic
    graph datatype, so that the number of stacked LSTM cells can be counted;
  * `initialize` (lines 116-150) as a state transformer over an explicit
    runtime-state record, with the filesystem and the outcome of
    `load_params` supplied as parameters;
  * `predict` (lines 196-220) as a scatter of per-batch model outputs into
    identifier-indexed output arrays, with the bucketing iterator's batch
    stream supplied as a parameter (the iterator class `BucketSeqLabelIter`
    itself is not part of the sources under verification);
  * `train_epochs` (lines 169-194) as the trace of framework calls it makes;
  * the path computation of `save` (lines 222-239).

Python-specific behaviour is preserved: `if epoch:` and `if use_gpus:` are
truthiness tests (0, None and [] are falsy), `range(n)` is empty for n <= 0,
and `zip` truncates to the shorter argument.
-/

/-- Metric objects selectable in `__init__` (mx.metric.Accuracy,
mx.metric.CrossEntropy, mx.metric.TopKAccuracy(top_k=3)). -/
inductive Metric
  | accuracy
  | crossEntropy
  | topKAccuracy (top_k : Nat)
deriving DecidableEq, Repr

/-- Metric selection of `__init__` lines 70-75: an if/elif chain with no
else branch, so an unrecognized identifier selects nothing. -/
def selectMetric (metric : String) : Option Metric :=
  if metric = "acc" then some Metric.accuracy
  else if metric = "cross-entropy" then some Metric.crossEntropy
  else if metric = "topk" then some (Metric.topKAccuracy 3)
  else none

/-- A device handle: `mx.gpu(i)` or `mx.cpu(i)`. -/
inductive Device
  | gpu (i : Nat)
  | cpu (i : Nat)
deriving DecidableEq, Repr

/-- The device context attribute: either a list of devices or the single
default device `mx.cpu(0)`. -/
inductive DeviceCtx
  | multi (devices : List Device)
  | single (device : Device)
deriving DecidableEq, Repr

/-- Device context selection of `__init__` lines 77-83: `if use_gpus:` /
`elif use_cpus:` / `else`, where a Python list is truthy iff non-empty. -/
def selectCtx (use_gpus use_cpus : List Nat) : DeviceCtx :=
  if use_gpus.isEmpty then
    if use_cpus.isEmpty then DeviceCtx.single (Device.cpu 0)
    else DeviceCtx.multi (use_cpus.map Device.cpu)
  else DeviceCtx.multi (use_gpus.map Device.gpu)

/-- State of the runtime's parameter store.  `allocated` is the state right
after `bind` (arrays exist but neither loaded nor initialized), `loaded`
after a successful `load_params`, `fresh` after `init_params`. -/
inductive ParamsState
  | allocated
  | loaded
  | fresh
deriving DecidableEq, Repr

/-- The slice of `mx.module.BucketingModule` state that the wrapper
manipulates: the default bucket key it was created with, whether `bind` has
run, the parameter-store state, and whether `init_optimizer` has run. -/
structure BucketingModule where
  default_bucket_key : Nat
  binded : Bool
  params : ParamsState
  optimizerSet : Bool
deriving DecidableEq, Repr

/-- A log record emitted through `self.logger`. -/
inductive LogEvent
  | info (msg : String)
  | warning (msg : String)
  | error (msg : String)
deriving DecidableEq, Repr

/-- Outcome of the framework call `self.model.load_params(self.params_file)`:
it either succeeds or raises one of the two exception classes caught at
line 142 (`IOError` for read failures, `ValueError` for format failures). -/
inductive LoadOutcome
  | success
  | ioError
  | valueError
deriving DecidableEq, Repr

/-- The dynamic type of the argument passed to `initialize`: either a
`BucketSeqLabelIter` (carrying its `default_bucket_key`) or some other
iterator object such as an `mx.io.NDArrayIter`. -/
inductive DataIter
  | bucketSeqLabelIter (default_bucket_key : Nat)
  | ndArrayIter
deriving DecidableEq, Repr

/-- The `isinstance(data_iter, BucketSeqLabelIter)` test of line 128. -/
def isBucketSeqLabelIter : DataIter → Bool
  | DataIter.bucketSeqLabelIter _ => true
  | DataIter.ndArrayIter => false

/-- Instance state of the classifier: the hyperparameters stored by
`__init__` plus the `metric`, `ctx` and `model` attributes.  `metric` is an
`Option` because the if/elif chain of lines 70-75 may set nothing;
`lstm_layer` is an `Int` because Python does not constrain it to be
positive; `input_dim` defaults to `None` in the source, hence `Option`. -/
structure H3RNNSeqClassifier where
  num_hidden : Nat
  num_embed : Nat
  input_dim : Option Nat
  lstm_layer : Int
  num_classes : Nat
  params_file : String
  learning_rate : Rat
  optimizer : String
  metric : Option Metric
  ctx : DeviceCtx
  model : Option BucketingModule
deriving DecidableEq, Repr

/-- The constructor `__init__` (lines 27-84), restricted to the attributes
the rest of the class reads.  Parameters appear in source order; the
logging-setup block (lines 44-59) only configures the process-wide logger
and is omitted.  `self.model = None` is line 84. -/
def mkH3RNNSeqClassifier (num_hidden num_embed : Nat) (input_dim : Option Nat)
    (lstm_layer : Int) (num_classes : Nat) (params_file : String)
    (learning_rate : Rat) (optimizer : String) (metric : String)
    (use_gpus use_cpus : List Nat) : H3RNNSeqClassifier :=
  { num_hidden := num_hidden
    num_embed := num_embed
    input_dim := input_dim
    lstm_layer := lstm_layer
    num_classes := num_classes
    params_file := params_file
    learning_rate := learning_rate
    optimizer := optimizer
    metric := selectMetric metric
    ctx := selectCtx use_gpus use_cpus
    model := none }

/-- Symbolic computation graphs, covering exactly the node kinds that
`_sym_gen` creates.  `lstmUnroll` stands for one `mx.rnn.LSTMCell` together
with its `unroll(seq_len, inputs, layout=NTC)` output sequence; `cellName`
records the cell name passed to the LSTMCell constructor. -/
inductive MxSym
  | var (name : String)
  | embedding (data : MxSym) (input_dim : Option Nat) (output_dim : Nat) (name : String)
  | lstmUnroll (cellName : String) (num_hidden seq_len : Nat) (inputs : MxSym)
  | fullyConnected (data : MxSym) (num_hidden : Nat) (name : String)
  | softmaxOutput (data : MxSym) (label : MxSym) (name : String)
deriving DecidableEq, Repr

/-- The loop of `_sym_gen` lines 106-109: `for i in range(self.lstm_layer - 1)`
stacks one further LSTM cell named `lstm_<i+2>_` on the previous outputs.
The first argument is the loop variable `i`, the second the number of
remaining iterations. -/
def stackMore (num_hidden seq_len : Nat) : Nat → Nat → MxSym → MxSym
  | _, 0, s => s
  | i, k + 1, s =>
      stackMore num_hidden seq_len (i + 1) k
        (MxSym.lstmUnroll ("lstm_" ++ toString (i + 2) ++ "_") num_hidden seq_len s)

/-- The symbol generator `_sym_gen` (lines 86-114): embedding over the
`data` variable, a first LSTM cell `lstm_1_`, `lstm_layer - 1` further
stacked cells (`range` of a non-positive number is empty), then a
fully-connected projection of the last output to `num_classes` logits and a
softmax-with-label output.  Returns the graph and the data/label names. -/
def H3RNNSeqClassifier.symGen (c : H3RNNSeqClassifier) (seq_len : Nat) :
    MxSym × List String × List String :=
  let data := MxSym.var "data"
  let label := MxSym.var "softmax_label"
  let embeds := MxSym.embedding data c.input_dim c.num_embed "embed"
  let first := MxSym.lstmUnroll "lstm_1_" c.num_hidden seq_len embeds
  let outputs := stackMore c.num_hidden seq_len 0 (c.lstm_layer - 1).toNat first
  let pred := MxSym.fullyConnected outputs c.num_classes "logits"
  (MxSym.softmaxOutput pred label "softmax", ["data"], ["softmax_label"])

/-- Number of LSTM cells appearing in a graph. -/
def lstmCellCount : MxSym → Nat
  | MxSym.var _ => 0
  | MxSym.embedding d _ _ _ => lstmCellCount d
  | MxSym.lstmUnroll _ _ _ inputs => lstmCellCount inputs + 1
  | MxSym.fullyConnected d _ _ => lstmCellCount d
  | MxSym.softmaxOutput d l _ => lstmCellCount d + lstmCellCount l

/-- The `TypeError` message of `initialize` line 129. -/
def typeErrMsg : String :=
  "Data iterator for this model should be of type BucketSeqLabelIter."

/-- The warning of `initialize` lines 143-144. -/
def paramsWarnMsg : String :=
  "Parameters file does not exist or not valid! please check the file."

/-- The info message of `initialize` lines 140-141. -/
def loadedMsg (f : String) : String :=
  "LSTM model parameters loaded from file: " ++ f ++ "."

/-- The info message of `initialize` line 147. -/
def freshInitMsg : String := "LSTM Model initialized."

/-- Result of running `initialize`: the instance state afterwards, the
exception raised (if any), and the log records emitted. -/
structure InitOutcome where
  state : H3RNNSeqClassifier
  raised : Option String
  logs : List LogEvent
deriving DecidableEq, Repr

/-- The method `initialize` (lines 116-150).  A non-`BucketSeqLabelIter`
argument raises `TypeError` at line 130 before any model construction; the
`self.logger.error` call at line 131 sits after the `raise` and never runs,
so no log record is emitted on that path.  Otherwise the bucketing module
is created and bound (lines 134-136); if the parameters file exists on
disk, `load_params` is attempted, and an `IOError`/`ValueError` from it is
caught and turned into a warning with no further recovery action — in
particular `init_params` is NOT called on that path; only when the file
does not exist is `init_params` called.  `init_optimizer` runs last. -/
def H3RNNSeqClassifier.initModel (c : H3RNNSeqClassifier) (d : DataIter)
    (paramsFileOnDisk : Bool) (lo : LoadOutcome) : InitOutcome :=
  match d with
  | DataIter.bucketSeqLabelIter key =>
      let bound : BucketingModule :=
        { default_bucket_key := key
          binded := true
          params := ParamsState.allocated
          optimizerSet := false }
      let afterLoad : BucketingModule × List LogEvent :=
        if paramsFileOnDisk then
          match lo with
          | LoadOutcome.success =>
              ({ bound with params := ParamsState.loaded },
               [LogEvent.info (loadedMsg c.params_file)])
          | LoadOutcome.ioError => (bound, [LogEvent.warning paramsWarnMsg])
          | LoadOutcome.valueError => (bound, [LogEvent.warning paramsWarnMsg])
        else
          ({ bound with params := ParamsState.fresh }, [LogEvent.info freshInitMsg])
      { state := { c with model := some { afterLoad.1 with optimizerSet := true } }
        raised := none
        logs := afterLoad.2 }
  | DataIter.ndArrayIter =>
      { state := c, raised := some typeErrMsg, logs := [] }

/-- Auxiliary scan for `npArgmax`: current index, index of the best value
seen so far, and the best value itself; strictly-greater comparison gives
numpy's first-occurrence tie-breaking. -/
def npArgmaxAux : List Int → Nat → Nat → Int → Nat
  | [], _, best, _ => best
  | x :: xs, i, best, b =>
      if b < x then npArgmaxAux xs (i + 1) i x else npArgmaxAux xs (i + 1) best b

/-- `np.argmax` on a one-dimensional array: the index of the first maximal
entry. -/
def npArgmax : List Int → Nat
  | [] => 0
  | x :: xs => npArgmaxAux xs 1 0 x

/-- One batch as `predict` consumes it: the rows of
`self.model.get_outputs()[0]` and, in the same order, the sample
identifiers carried in `batch.label[0]` (the iterator was constructed with
`sample_ids = range(len(test_data))` as labels). -/
structure Batch where
  out : List (List Int)
  ids : List Nat
deriving DecidableEq, Repr

/-- The loop body of `predict` lines 217-219: for one `(logits, idx)` pair,
`labels[idx] = np.argmax(logits)` and `scores[idx] = logits`. -/
def writePair (acc : List Nat × List (List Int)) (p : List Int × Nat) :
    List Nat × List (List Int) :=
  (acc.1.set p.2 (npArgmax p.1), acc.2.set p.2 p.1)

/-- The method `predict` (lines 196-220).  `numSamples` is
`len(test_data)`; the batches produced by the `BucketSeqLabelIter` built at
lines 212-213, together with the model outputs for them, enter as
`batches`.  `labels` starts as `np.zeros(N, dtype=int)` and `scores` as
`np.zeros((N, num_classes))`; Python's `zip(out, batch.label[0])`
truncates to the shorter list. -/
def H3RNNSeqClassifier.predict (c : H3RNNSeqClassifier) (numSamples : Nat)
    (batches : List Batch) : List Nat × List (List Int) :=
  batches.foldl (fun acc b => (b.out.zip b.ids).foldl writePair acc)
    (List.replicate numSamples 0,
     List.replicate numSamples (List.replicate c.num_classes 0))

/-- Modelled from the spec: the iterator contract of `BucketSeqLabelIter`
(whose source is not under verification).  Per the spec, `predict` wraps
the inputs with identifiers `0..N-1` as labels and the iterator yields
every sample in some batch, possibly reordered across buckets; so the
identifiers carried across all batches form a permutation of the supplied
`sample_ids`. -/
def IterYieldsIds (sample_ids : List Nat) (batches : List Batch) : Prop :=
  (batches.flatMap Batch.ids).Perm sample_ids

/-- One framework interaction performed by `train_epochs`; `β` is the type
of batch payloads handed to `step`. -/
inductive TrainEvent (β : Type)
  | trainReset
  | stepCall (b : β)
  | evalReset
  | scoreCall
  | epochLog (e : Nat)
deriving DecidableEq, Repr

/-- One iteration of the epoch loop of `train_epochs` (lines 186-194) for
epoch index `e`: `train_data.reset()`, one `step` per batch in iterator
order, then — only `if eval_data:` — `eval_data.reset()`, `model.score`,
and the epoch info log mentioning `e + 1`. -/
def epochPass {β : Type} (batches : List β) (hasEval : Bool) (e : Nat) :
    List (TrainEvent β) :=
  TrainEvent.trainReset :: batches.map TrainEvent.stepCall ++
    (if hasEval then [TrainEvent.evalReset, TrainEvent.scoreCall, TrainEvent.epochLog (e + 1)]
     else [])

/-- The loop `for e in range(num_epochs)` of `train_epochs`, unrolled from
epoch index `e` for `k` remaining epochs. -/
def trainEpochsFrom {β : Type} (batches : List β) (hasEval : Bool) :
    Nat → Nat → List (TrainEvent β)
  | _, 0 => []
  | e, k + 1 => epochPass batches hasEval e ++ trainEpochsFrom batches hasEval (e + 1) k

/-- The method `train_epochs` (lines 169-194) as the trace of framework
calls it performs.  `evalData` is `eval_data`; an iterator object is truthy
in Python, so `if eval_data:` is an `isSome` test. -/
def train_epochs {β : Type} (batches : List β) (evalData : Option (List β))
    (num_epochs : Nat) : List (TrainEvent β) :=
  trainEpochsFrom batches evalData.isSome 0 num_epochs

/-- Extracts the payload of a `step` call from a trace event. -/
def stepOf {β : Type} : TrainEvent β → Option β
  | TrainEvent.stepCall b => some b
  | _ => none

/-- The path computation of `save` (lines 235-236): `if epoch:` is a
truthiness test, so `None` and `0` both leave the path unchanged, and any
non-zero epoch appends `-<epoch>`. -/
def savePath (path : String) (epoch : Option Int) : String :=
  match epoch with
  | some e => if e ≠ 0 then path ++ "-" ++ toString e else path
  | none => path

/-! ### Auxiliary lemmas -/

/-- The argmax scan never moves off `best` while no element strictly
exceeds the best value. -/
theorem npArgmaxAux_of_le (l : List Int) :
    ∀ i best b, (∀ x ∈ l, ¬ b < x) → npArgmaxAux l i best b = best := by
  induction l with
  | nil => intro i best b _; rfl
  | cons x xs ih =>
      intro i best b h
      have hx : ¬ b < x := h x (List.mem_cons_self x xs)
      simp only [npArgmaxAux, if_neg hx]
      exact ih (i + 1) best b fun y hy => h y (List.mem_cons_of_mem x hy)

/-- `np.argmax` of an all-zero row is 0 (numpy returns the first maximal
index). -/
theorem npArgmax_replicate_zero (n : Nat) :
    npArgmax (List.replicate n (0 : Int)) = 0 := by
  cases n with
  | zero => rfl
  | succ m =>
      simp only [List.replicate_succ, npArgmax]
      exact npArgmaxAux_of_le _ 1 0 0 (by intro x hx; simp [List.eq_of_mem_replicate hx])

/-- Scattering pairs never changes the lengths of the two output arrays. -/
theorem foldl_writePair_length (ps : List (List Int × Nat)) :
    ∀ acc : List Nat × List (List Int),
      (List.foldl writePair acc ps).1.length = acc.1.length ∧
      (List.foldl writePair acc ps).2.length = acc.2.length := by
  induction ps with
  | nil => intro acc; exact ⟨rfl, rfl⟩
  | cons p ps ih =>
      intro acc
      have h := ih (writePair acc p)
      simpa [writePair, List.length_set] using h

/-- The labels/argmax-of-scores relation is an invariant of the scatter
loop: each write stores a row and its argmax at the same index. -/
theorem foldl_writePair_argmax (ps : List (List Int × Nat)) :
    ∀ acc : List Nat × List (List Int),
      acc.1.length = acc.2.length →
      (∀ i : Nat, acc.1[i]? = (acc.2[i]?).map npArgmax) →
      (∀ i : Nat, (List.foldl writePair acc ps).1[i]? =
        ((List.foldl writePair acc ps).2[i]?).map npArgmax) := by
  induction ps with
  | nil => intro acc _ h i; exact h i
  | cons p ps ih =>
      intro acc hlen h
      apply ih (writePair acc p)
      · simpa [writePair] using hlen
      · intro i
        show (acc.1.set p.2 (npArgmax p.1))[i]? = ((acc.2.set p.2 p.1)[i]?).map npArgmax
        rw [List.getElem?_set, List.getElem?_set]
        by_cases hij : p.2 = i
        · rw [if_pos hij, if_pos hij, hlen]
          by_cases hi : p.2 < acc.2.length
          · rw [if_pos hi, if_pos hi]; rfl
          · rw [if_neg hi, if_neg hi]; rfl
        · rw [if_neg hij, if_neg hij]; exact h i

/-- Positions whose identifier never occurs among the scattered pairs keep
their current contents. -/
theorem foldl_writePair_untouched (ps : List (List Int × Nat)) :
    ∀ (acc : List Nat × List (List Int)) (i : Nat), (∀ p ∈ ps, p.2 ≠ i) →
      (List.foldl writePair acc ps).1[i]? = acc.1[i]? ∧
      (List.foldl writePair acc ps).2[i]? = acc.2[i]? := by
  induction ps with
  | nil => intro acc i _; exact ⟨rfl, rfl⟩
  | cons p ps ih =>
      intro acc i h
      have hp : p.2 ≠ i := h p (List.mem_cons_self p ps)
      obtain ⟨h1, h2⟩ := ih (writePair acc p) i fun q hq => h q (List.mem_cons_of_mem p hq)
      refine ⟨h1.trans ?_, h2.trans ?_⟩ <;>
        · show (List.set _ p.2 _)[i]? = _
          rw [List.getElem?_set, if_neg hp]

/-- Folding the scatter body batch by batch equals one scatter over the
concatenation of all `(logits, idx)` pairs. -/
theorem foldl_batches_eq_pairs (batches : List Batch) :
    ∀ acc : List Nat × List (List Int),
      List.foldl (fun acc b => (b.out.zip b.ids).foldl writePair acc) acc batches =
        List.foldl writePair acc (batches.flatMap fun b => b.out.zip b.ids) := by
  induction batches with
  | nil => intro acc; rfl
  | cons b bs ih => intro acc; simp [List.flatMap_cons, List.foldl_append, ih]

/-- The scatter of `predict` as one fold over all `(logits, idx)` pairs. -/
theorem predict_eq_foldl_pairs (c : H3RNNSeqClassifier) (numSamples : Nat)
    (batches : List Batch) :
    c.predict numSamples batches =
      List.foldl writePair
        (List.replicate numSamples 0,
         List.replicate numSamples (List.replicate c.num_classes 0))
        (batches.flatMap fun b => b.out.zip b.ids) :=
  foldl_batches_eq_pairs batches _

/-- Last write wins: if the last pair carrying identifier `i` has row `r`,
the scatter leaves `r` at index `i` of the score array and `np.argmax r` at
index `i` of the label array. -/
theorem foldl_writePair_last (i : Nat) (ps : List (List Int × Nat)) :
    ∀ (acc : List Nat × List (List Int)) (r : List Int),
      i < acc.2.length → acc.1.length = acc.2.length →
      (ps.filter (fun p => p.2 == i)).getLast? = some (r, i) →
      (List.foldl writePair acc ps).2[i]? = some r ∧
      (List.foldl writePair acc ps).1[i]? = some (npArgmax r) := by
  induction ps using List.reverseRecOn with
  | nil => intro acc r _ _ hlast; simp at hlast
  | append_singleton ps p ih =>
      intro acc r hi hlen hlast
      have hq := foldl_writePair_length ps acc
      rw [List.foldl_append, List.foldl_cons, List.foldl_nil]
      rw [List.filter_append] at hlast
      by_cases hpi : p.2 = i
      · have hfp : List.filter (fun p => p.2 == i) [p] = [p] := by simp [hpi]
        rw [hfp, List.getLast?_concat] at hlast
        have hpr : p = (r, i) := Option.some.inj hlast
        constructor
        · show ((List.foldl writePair acc ps).2.set p.2 p.1)[i]? = some r
          rw [List.getElem?_set, if_pos hpi, if_pos (by rw [hq.2]; exact hpi ▸ hi)]
          rw [hpr]
        · show ((List.foldl writePair acc ps).1.set p.2 (npArgmax p.1))[i]? =
            some (npArgmax r)
          rw [List.getElem?_set, if_pos hpi,
            if_pos (by rw [hq.1, hlen]; exact hpi ▸ hi)]
          rw [hpr]
      · have hfp : List.filter (fun p => p.2 == i) [p] = [] := by simp [hpi]
        rw [hfp, List.append_nil] at hlast
        obtain ⟨h2, h1⟩ := ih acc r hi hlen hlast
        constructor
        · show ((List.foldl writePair acc ps).2.set p.2 p.1)[i]? = some r
          rw [List.getElem?_set, if_neg hpi]; exact h2
        · show ((List.foldl writePair acc ps).1.set p.2 (npArgmax p.1))[i]? =
            some (npArgmax r)
          rw [List.getElem?_set, if_neg hpi]; exact h1

/-- Combined shape of the scatter result of `predict`, over an arbitrary
stream of `(logits, idx)` pairs: both arrays keep length `N`, every label
entry is the argmax of the matching score row, and the last pair carrying
an identifier determines that identifier's final row. -/
theorem scatter_main (nc N : Nat) (ps : List (List Int × Nat)) :
    ((List.foldl writePair
        (List.replicate N 0, List.replicate N (List.replicate nc 0)) ps).1.length = N) ∧
    ((List.foldl writePair
        (List.replicate N 0, List.replicate N (List.replicate nc 0)) ps).2.length = N) ∧
    (∀ i, i < N →
      (List.foldl writePair
        (List.replicate N 0, List.replicate N (List.replicate nc 0)) ps).1.getD i 0 =
      npArgmax ((List.foldl writePair
        (List.replicate N 0, List.replicate N (List.replicate nc 0)) ps).2.getD i [])) ∧
    (∀ i r, i < N → (ps.filter (fun p => p.2 == i)).getLast? = some (r, i) →
      (List.foldl writePair
        (List.replicate N 0, List.replicate N (List.replicate nc 0)) ps).2.getD i [] = r ∧
      (List.foldl writePair
        (List.replicate N 0, List.replicate N (List.replicate nc 0)) ps).1.getD i 0 =
        npArgmax r) := by
  have hinv0 : ∀ i : Nat, (List.replicate N (0 : Nat))[i]? =
      ((List.replicate N (List.replicate nc (0 : Int)))[i]?).map npArgmax := by
    intro i
    rw [List.getElem?_replicate, List.getElem?_replicate]
    by_cases hi : i < N
    · rw [if_pos hi, if_pos hi]
      simp [npArgmax_replicate_zero]
    · rw [if_neg hi, if_neg hi]; rfl
  have hlen0 := foldl_writePair_length ps
    (List.replicate N 0, List.replicate N (List.replicate nc 0))
  have hinvq := foldl_writePair_argmax ps
    (List.replicate N 0, List.replicate N (List.replicate nc 0)) (by simp) hinv0
  generalize hqdef : List.foldl writePair
    (List.replicate N 0, List.replicate N (List.replicate nc 0)) ps = q at hlen0 hinvq
  have hlen1 : q.1.length = N := by rw [hlen0.1]; simp
  have hlen2 : q.2.length = N := by rw [hlen0.2]; simp
  refine ⟨hlen1, hlen2, ?_, ?_⟩
  · intro i hi
    obtain ⟨row, hrow⟩ : ∃ row, q.2[i]? = some row := by
      rw [List.getElem?_eq_getElem (by rw [hlen2]; exact hi)]
      exact ⟨_, rfl⟩
    rw [List.getD_eq_getElem?_getD, List.getD_eq_getElem?_getD, hinvq i, hrow]
    rfl
  · intro i r hi hlast
    have hl := foldl_writePair_last i ps
      (List.replicate N 0, List.replicate N (List.replicate nc 0)) r
      (by simpa using hi) (by simp) hlast
    rw [hqdef] at hl
    obtain ⟨h2, h1⟩ := hl
    constructor
    · rw [List.getD_eq_getElem?_getD, h2]; rfl
    · rw [List.getD_eq_getElem?_getD, h1]; rfl

/-- Without evaluation data, every epoch contributes exactly the batch list
to the sequence of `step` payloads. -/
theorem trainEpochsFrom_no_eval_steps {β : Type} (batches : List β) :
    ∀ (k e : Nat), (trainEpochsFrom batches false e k).filterMap stepOf =
      (List.replicate k batches).flatten := by
  intro k
  induction k with
  | zero => intro e; rfl
  | succ m ih =>
      intro e
      rw [trainEpochsFrom, List.filterMap_append, ih (e + 1)]
      have hsteps : (epochPass batches false e).filterMap stepOf = batches := by
        rw [epochPass]
        have hc : (stepOf ∘ TrainEvent.stepCall : β → Option β) = some :=
          funext fun b => rfl
        simp [stepOf, List.filterMap_cons, List.filterMap_map, hc, List.filterMap_some]
      rw [hsteps, List.replicate_succ, List.flatten_cons]

/-- Without evaluation data, the trace never contains a `score` call. -/
theorem trainEpochsFrom_no_eval_no_score {β : Type} (batches : List β) :
    ∀ (k e : Nat), TrainEvent.scoreCall ∉ trainEpochsFrom batches false e k := by
  intro k
  induction k with
  | zero => intro e h; exact absurd h (List.not_mem_nil _)
  | succ m ih =>
      intro e h
      rw [trainEpochsFrom, List.mem_append] at h
      rcases h with h | h
      · simp [epochPass] at h
      · exact ih (e + 1) h

/-- Each iteration of the stacking loop adds exactly one LSTM cell. -/
theorem lstmCellCount_stackMore (nh sl : Nat) :
    ∀ (k i : Nat) (s : MxSym),
      lstmCellCount (stackMore nh sl i k s) = lstmCellCount s + k := by
  intro k
  induction k with
  | zero => intro i s; rfl
  | succ m ih =>
      intro i s
      rw [stackMore, ih]
      simp [lstmCellCount]
      omega

/-! ### Claim theorems -/

/-- C3 counterexample: `save(path, epoch)` does not append `-<epoch>` for
every given epoch value — `epoch = 0` is falsy in Python, so
`save("model.params", 0)` writes to the unchanged path, not to
`"model.params-0"`. -/
theorem savePath_epoch_zero_cex :
    savePath "model.params" (some 0) = "model.params" ∧
    "model.params" ≠ "model.params" ++ "-0" := by
  exact ⟨rfl, by decide⟩

/-- C3 amended: `save(path, epoch)` appends `-<epoch>` for every given
NON-ZERO epoch value, and `save(path)` with no epoch (and likewise
`epoch = 0`, by Python truthiness) writes to `path` unchanged. -/
theorem savePath_appends_nonzero_epoch (p : String) (e : Int) (he : e ≠ 0) :
    savePath p (some e) = p ++ "-" ++ toString e ∧ savePath p none = p := by
  constructor
  · simp [savePath, he]
  · rfl

/-- Witness for `savePath_appends_nonzero_epoch` at path `"model.params"`
and epoch `5`. -/
theorem savePath_appends_nonzero_epoch_witness :
    (5 : Int) ≠ 0 ∧
    (savePath "model.params" (some 5) = "model.params" ++ "-" ++ toString (5 : Int) ∧
     savePath "model.params" none = "model.params") :=
  ⟨by decide, savePath_appends_nonzero_epoch "model.params" 5 (by decide)⟩

/-- C4 counterexample: with `lstm_layer = 0` the generated graph still
contains one LSTM cell (the loop `range(lstm_layer - 1)` is empty, but
`lstm_1_` is always built), so the cell count does not equal `lstm_layer`
for every hyperparameter set. -/
theorem symGen_zero_layers_cex :
    (mkH3RNNSeqClassifier 256 128 (some 1000) 0 2 "" (1/10) "sgd" "acc" [] []).lstm_layer
      = 0 ∧
    ¬ ((lstmCellCount
        ((mkH3RNNSeqClassifier 256 128 (some 1000) 0 2 "" (1/10) "sgd" "acc"
          [] []).symGen 7).1 : Int) =
      (mkH3RNNSeqClassifier 256 128 (some 1000) 0 2 "" (1/10) "sgd" "acc"
          [] []).lstm_layer) := by
  refine ⟨rfl, ?_⟩
  intro h
  have h1 : (lstmCellCount
      ((mkH3RNNSeqClassifier 256 128 (some 1000) 0 2 "" (1/10) "sgd" "acc"
        [] []).symGen 7).1 : Int) = 1 := rfl
  rw [h1] at h
  exact absurd h (by decide)

/-- C4 amended: for every hyperparameter set with `lstm_layer = k >= 1`,
the graph produced by `_sym_gen` contains exactly `k` stacked LSTM cells
(for `k <= 0` the graph still contains the single always-built cell). -/
theorem symGen_cell_count (c : H3RNNSeqClassifier) (seq_len : Nat)
    (h : 1 ≤ c.lstm_layer) :
    (lstmCellCount (c.symGen seq_len).1 : Int) = c.lstm_layer := by
  show (lstmCellCount
    (MxSym.softmaxOutput
      (MxSym.fullyConnected
        (stackMore c.num_hidden seq_len 0 (c.lstm_layer - 1).toNat
          (MxSym.lstmUnroll "lstm_1_" c.num_hidden seq_len
            (MxSym.embedding (MxSym.var "data") c.input_dim c.num_embed "embed")))
        c.num_classes "logits")
      (MxSym.var "softmax_label") "softmax") : Int) = c.lstm_layer
  simp [lstmCellCount, lstmCellCount_stackMore]
  omega

/-- Witness for `symGen_cell_count` with three layers and sequence
length 7. -/
theorem symGen_cell_count_witness :
    1 ≤ (mkH3RNNSeqClassifier 256 128 (some 1000) 3 2 "" (1/10) "sgd" "acc"
        [] []).lstm_layer ∧
    (lstmCellCount
      ((mkH3RNNSeqClassifier 256 128 (some 1000) 3 2 "" (1/10) "sgd" "acc"
        [] []).symGen 7).1 : Int) =
    (mkH3RNNSeqClassifier 256 128 (some 1000) 3 2 "" (1/10) "sgd" "acc"
        [] []).lstm_layer :=
  ⟨by decide,
   symGen_cell_count
     (mkH3RNNSeqClassifier 256 128 (some 1000) 3 2 "" (1/10) "sgd" "acc" [] [])
     7 (by decide)⟩

/-- C5: an unrecognized metric identifier makes construction silent — no
exception (the constructor is total), no default, and the `metric`
attribute is left unset (`none`). -/
theorem mk_unrecognized_metric_unset (nh ne : Nat) (idim : Option Nat)
    (ll : Int) (ncl : Nat) (pf : String) (lr : Rat) (opt m : String)
    (gpus cpus : List Nat)
    (h1 : m ≠ "acc") (h2 : m ≠ "cross-entropy") (h3 : m ≠ "topk") :
    (mkH3RNNSeqClassifier nh ne idim ll ncl pf lr opt m gpus cpus).metric = none := by
  show selectMetric m = none
  rw [selectMetric, if_neg h1, if_neg h2, if_neg h3]

/-- Witness for `mk_unrecognized_metric_unset` at the unrecognized
identifier `"f1"`. -/
theorem mk_unrecognized_metric_unset_witness :
    ("f1" : String) ≠ "acc" ∧ ("f1" : String) ≠ "cross-entropy" ∧
    ("f1" : String) ≠ "topk" ∧
    (mkH3RNNSeqClassifier 256 128 (some 1000) 1 2 "" (1/10) "sgd" "f1"
      [] []).metric = none :=
  ⟨by decide, by decide, by decide,
   mk_unrecognized_metric_unset 256 128 (some 1000) 1 2 "" (1/10) "sgd" "f1"
     [] [] (by decide) (by decide) (by decide)⟩

/-- C9: when both the GPU index list and the CPU index list are non-empty,
the `if use_gpus:` branch wins: the context is built from the GPU indices
and the CPU list is ignored (the result does not depend on it). -/
theorem mk_gpu_precedence (nh ne : Nat) (idim : Option Nat) (ll : Int)
    (ncl : Nat) (pf : String) (lr : Rat) (opt m : String)
    (gpus cpus : List Nat) (hg : gpus ≠ []) (hc : cpus ≠ []) :
    (mkH3RNNSeqClassifier nh ne idim ll ncl pf lr opt m gpus cpus).ctx =
      DeviceCtx.multi (gpus.map Device.gpu) := by
  show selectCtx gpus cpus = _
  have hge : gpus.isEmpty = false := by
    cases gpus with
    | nil => exact absurd rfl hg
    | cons a l => rfl
  rw [selectCtx, hge]
  rfl

/-- Witness for `mk_gpu_precedence` with GPUs `[0, 1]` and CPUs `[0]`. -/
theorem mk_gpu_precedence_witness :
    ([0, 1] : List Nat) ≠ [] ∧ ([0] : List Nat) ≠ [] ∧
    (mkH3RNNSeqClassifier 256 128 (some 1000) 1 2 "" (1/10) "sgd" "acc"
      [0, 1] [0]).ctx = DeviceCtx.multi ([0, 1].map Device.gpu) :=
  ⟨by decide, by decide,
   mk_gpu_precedence 256 128 (some 1000) 1 2 "" (1/10) "sgd" "acc"
     [0, 1] [0] (by decide) (by decide)⟩

/-- C6: `initialize` with an argument that is not a `BucketSeqLabelIter`
raises the `TypeError` of line 130 before any runtime construction: the
instance state (in particular `self.model`) is unchanged, and — the
logging call at line 131 being unreachable — no log record is emitted. -/
theorem initModel_type_error (c : H3RNNSeqClassifier) (d : DataIter)
    (fileOnDisk : Bool) (lo : LoadOutcome)
    (hd : isBucketSeqLabelIter d = false) :
    (c.initModel d fileOnDisk lo).raised = some typeErrMsg ∧
    (c.initModel d fileOnDisk lo).state = c ∧
    (c.initModel d fileOnDisk lo).state.model = c.model ∧
    (c.initModel d fileOnDisk lo).logs = [] := by
  cases d with
  | bucketSeqLabelIter key => simp [isBucketSeqLabelIter] at hd
  | ndArrayIter => exact ⟨rfl, rfl, rfl, rfl⟩

/-- Witness for `initModel_type_error` at an `NDArrayIter`-typed
argument. -/
theorem initModel_type_error_witness :
    isBucketSeqLabelIter DataIter.ndArrayIter = false ∧
    (((mkH3RNNSeqClassifier 256 128 (some 1000) 1 2 "" (1/10) "sgd" "acc"
        [] []).initModel DataIter.ndArrayIter false LoadOutcome.success).raised
      = some typeErrMsg ∧
     ((mkH3RNNSeqClassifier 256 128 (some 1000) 1 2 "" (1/10) "sgd" "acc"
        [] []).initModel DataIter.ndArrayIter false LoadOutcome.success).state =
       mkH3RNNSeqClassifier 256 128 (some 1000) 1 2 "" (1/10) "sgd" "acc" [] [] ∧
     ((mkH3RNNSeqClassifier 256 128 (some 1000) 1 2 "" (1/10) "sgd" "acc"
        [] []).initModel DataIter.ndArrayIter false LoadOutcome.success).state.model =
       (mkH3RNNSeqClassifier 256 128 (some 1000) 1 2 "" (1/10) "sgd" "acc"
        [] []).model ∧
     ((mkH3RNNSeqClassifier 256 128 (some 1000) 1 2 "" (1/10) "sgd" "acc"
        [] []).initModel DataIter.ndArrayIter false LoadOutcome.success).logs = []) :=
  ⟨rfl,
   initModel_type_error
     (mkH3RNNSeqClassifier 256 128 (some 1000) 1 2 "" (1/10) "sgd" "acc" [] [])
     DataIter.ndArrayIter false LoadOutcome.success rfl⟩

/-- C1 counterexample: when the parameters file exists but loading fails
with an I/O error, `initialize` completes without raising and logs the
warning, BUT the parameters do not end in a freshly-initialized state:
`init_params` is only called on the no-file branch (line 146), so after the
caught failure the parameter store is still merely bound/allocated, not
fresh. -/
theorem initModel_corrupt_not_fresh_cex :
    ((mkH3RNNSeqClassifier 256 128 (some 1000) 1 2 "weights.params" (1/10) "sgd"
        "acc" [] []).initModel (DataIter.bucketSeqLabelIter 10) true
        LoadOutcome.ioError).raised = none ∧
    ((mkH3RNNSeqClassifier 256 128 (some 1000) 1 2 "weights.params" (1/10) "sgd"
        "acc" [] []).initModel (DataIter.bucketSeqLabelIter 10) true
        LoadOutcome.ioError).logs = [LogEvent.warning paramsWarnMsg] ∧
    ¬ ((mkH3RNNSeqClassifier 256 128 (some 1000) 1 2 "weights.params" (1/10) "sgd"
        "acc" [] []).initModel (DataIter.bucketSeqLabelIter 10) true
        LoadOutcome.ioError).state.model.map BucketingModule.params =
      some ParamsState.fresh := by
  refine ⟨rfl, rfl, ?_⟩
  intro h
  have h2 : ParamsState.allocated = ParamsState.fresh := Option.some.inj h
  exact ParamsState.noConfusion h2

/-- C1 amended: on a load failure (`IOError` or `ValueError`) with the
parameters file present, `initialize` completes without raising and logs
exactly the warning, but the model parameters are left in the
bound-but-uninitialized (`allocated`) state rather than a
freshly-initialized one; the optimizer is still configured afterwards. -/
theorem initModel_corrupt_load_recovers (c : H3RNNSeqClassifier) (key : Nat)
    (lo : LoadOutcome) (hlo : lo ≠ LoadOutcome.success) :
    (c.initModel (DataIter.bucketSeqLabelIter key) true lo).raised = none ∧
    (c.initModel (DataIter.bucketSeqLabelIter key) true lo).logs =
      [LogEvent.warning paramsWarnMsg] ∧
    (c.initModel (DataIter.bucketSeqLabelIter key) true lo).state.model =
      some { default_bucket_key := key, binded := true,
             params := ParamsState.allocated, optimizerSet := true } := by
  cases lo with
  | success => exact absurd rfl hlo
  | ioError => exact ⟨rfl, rfl, rfl⟩
  | valueError => exact ⟨rfl, rfl, rfl⟩

/-- Witness for `initModel_corrupt_load_recovers` at a concrete classifier
and an I/O load failure. -/
theorem initModel_corrupt_load_recovers_witness :
    LoadOutcome.ioError ≠ LoadOutcome.success ∧
    (((mkH3RNNSeqClassifier 256 128 (some 1000) 1 2 "weights.params" (1/10) "sgd"
        "acc" [] []).initModel (DataIter.bucketSeqLabelIter 10) true
        LoadOutcome.ioError).raised = none ∧
     ((mkH3RNNSeqClassifier 256 128 (some 1000) 1 2 "weights.params" (1/10) "sgd"
        "acc" [] []).initModel (DataIter.bucketSeqLabelIter 10) true
        LoadOutcome.ioError).logs = [LogEvent.warning paramsWarnMsg] ∧
     ((mkH3RNNSeqClassifier 256 128 (some 1000) 1 2 "weights.params" (1/10) "sgd"
        "acc" [] []).initModel (DataIter.bucketSeqLabelIter 10) true
        LoadOutcome.ioError).state.model =
       some { default_bucket_key := 10, binded := true,
              params := ParamsState.allocated, optimizerSet := true }) :=
  ⟨by decide,
   initModel_corrupt_load_recovers
     (mkH3RNNSeqClassifier 256 128 (some 1000) 1 2 "weights.params" (1/10) "sgd"
       "acc" [] []) 10 LoadOutcome.ioError (by decide)⟩

/-- C7: with `eval_data` omitted, `train_epochs(data, None, n)` performs
the `step` calls of exactly `n` passes over the batch list, in iterator
order (the payload sequence is `n` concatenated copies of the batch list,
hence `n * (batches per epoch)` calls), and the trace never contains a
`score` call. -/
theorem train_epochs_no_eval_trace {β : Type} (batches : List β)
    (num_epochs : Nat) :
    (train_epochs batches none num_epochs).filterMap stepOf =
      (List.replicate num_epochs batches).flatten ∧
    ((train_epochs batches none num_epochs).filterMap stepOf).length =
      num_epochs * batches.length ∧
    TrainEvent.scoreCall ∉ train_epochs batches none num_epochs := by
  have h1 := trainEpochsFrom_no_eval_steps batches num_epochs 0
  have h2 := trainEpochsFrom_no_eval_no_score batches num_epochs 0
  have heq : train_epochs batches none num_epochs =
      trainEpochsFrom batches false 0 num_epochs := rfl
  rw [heq, h1]
  refine ⟨rfl, ?_, h2⟩
  simp [List.length_flatten, List.map_replicate, List.sum_replicate, smul_eq_mul]

/-- C2: for `N` input samples, `predict` returns two arrays of length
exactly `N`; every label entry is the argmax of its score row; and output
order matches input order despite bucketing reorder: whatever batch
position an identifier `i` is yielded at, its (last) logits row `r` lands
at output index `i`, with `np.argmax r` at index `i` of the labels.  The
hypotheses record the iterator contract (identifiers are the supplied
`range(len(test_data))`) and `num_classes >= 1` (numpy's argmax rejects
empty rows). -/
theorem predict_lengths_argmax_scatter (c : H3RNNSeqClassifier)
    (numSamples : Nat) (batches : List Batch) (hnc : 0 < c.num_classes)
    (hids : ∀ id ∈ batches.flatMap Batch.ids, id < numSamples) :
    (c.predict numSamples batches).1.length = numSamples ∧
    (c.predict numSamples batches).2.length = numSamples ∧
    (∀ i, i < numSamples →
      (c.predict numSamples batches).1.getD i 0 =
        npArgmax ((c.predict numSamples batches).2.getD i [])) ∧
    (∀ (i : Nat) (r : List Int),
      ((batches.flatMap fun b => b.out.zip b.ids).filter
          (fun p => p.2 == i)).getLast? = some (r, i) →
      (c.predict numSamples batches).2.getD i [] = r ∧
      (c.predict numSamples batches).1.getD i 0 = npArgmax r) := by
  obtain ⟨h1, h2, h3, h4⟩ := scatter_main c.num_classes numSamples
    (batches.flatMap fun b => b.out.zip b.ids)
  rw [predict_eq_foldl_pairs]
  refine ⟨h1, h2, h3, ?_⟩
  intro i r hlast
  have hmem : (r, i) ∈ batches.flatMap (fun b => b.out.zip b.ids) :=
    (List.mem_filter.mp (List.mem_of_mem_getLast? hlast)).1
  have hiN : i < numSamples := by
    apply hids
    rw [List.mem_flatMap] at hmem ⊢
    obtain ⟨b, hb, hpb⟩ := hmem
    exact ⟨b, hb, (List.of_mem_zip hpb).2⟩
  exact h4 i r hiN hlast

/-- Witness for `predict_lengths_argmax_scatter`: two samples, one batch
yielding them in swapped order. -/
theorem predict_lengths_argmax_scatter_witness :
    0 < (mkH3RNNSeqClassifier 256 128 (some 1000) 1 2 "" (1/10) "sgd" "acc"
        [] []).num_classes ∧
    (∀ id ∈ ([{ out := [[1, 5], [9, 2]], ids := [1, 0] }] : List Batch).flatMap
        Batch.ids, id < 2) ∧
    (((mkH3RNNSeqClassifier 256 128 (some 1000) 1 2 "" (1/10) "sgd" "acc"
        [] []).predict 2 [{ out := [[1, 5], [9, 2]], ids := [1, 0] }]).1.length = 2 ∧
     ((mkH3RNNSeqClassifier 256 128 (some 1000) 1 2 "" (1/10) "sgd" "acc"
        [] []).predict 2 [{ out := [[1, 5], [9, 2]], ids := [1, 0] }]).2.length = 2 ∧
     (∀ i, i < 2 →
       ((mkH3RNNSeqClassifier 256 128 (some 1000) 1 2 "" (1/10) "sgd" "acc"
        [] []).predict 2 [{ out := [[1, 5], [9, 2]], ids := [1, 0] }]).1.getD i 0 =
         npArgmax (((mkH3RNNSeqClassifier 256 128 (some 1000) 1 2 "" (1/10) "sgd"
           "acc" [] []).predict 2
           [{ out := [[1, 5], [9, 2]], ids := [1, 0] }]).2.getD i [])) ∧
     (∀ (i : Nat) (r : List Int),
       ((([{ out := [[1, 5], [9, 2]], ids := [1, 0] }] : List Batch).flatMap
           fun b => b.out.zip b.ids).filter
           (fun p => p.2 == i)).getLast? = some (r, i) →
       ((mkH3RNNSeqClassifier 256 128 (some 1000) 1 2 "" (1/10) "sgd" "acc"
        [] []).predict 2 [{ out := [[1, 5], [9, 2]], ids := [1, 0] }]).2.getD i [] = r ∧
       ((mkH3RNNSeqClassifier 256 128 (some 1000) 1 2 "" (1/10) "sgd" "acc"
        [] []).predict 2 [{ out := [[1, 5], [9, 2]], ids := [1, 0] }]).1.getD i 0 =
         npArgmax r)) :=
  ⟨by decide, by decide,
   predict_lengths_argmax_scatter
     (mkH3RNNSeqClassifier 256 128 (some 1000) 1 2 "" (1/10) "sgd" "acc" [] [])
     2 [{ out := [[1, 5], [9, 2]], ids := [1, 0] }] (by decide) (by decide)⟩

/-- C8: `predict` on an empty input list (`N = 0`) returns two length-zero
arrays without raising; the iterator, by its contract, yields no sample
identifiers for an empty sample list, so no scatter happens. -/
theorem predict_empty_returns_empty (c : H3RNNSeqClassifier)
    (batches : List Batch) (hiter : IterYieldsIds (List.range 0) batches) :
    c.predict 0 batches = ([], []) := by
  have hnil : batches.flatMap Batch.ids = [] := by
    have h := hiter
    rw [IterYieldsIds, List.range_zero] at h
    exact h.eq_nil
  have hzip : ∀ b ∈ batches, b.out.zip b.ids = [] := by
    intro b hb
    have hids : b.ids = [] := (List.flatMap_eq_nil_iff.mp hnil) b hb
    rw [hids, List.zip_nil_right]
  rw [predict_eq_foldl_pairs, List.flatMap_eq_nil_iff.mpr hzip]
  rfl

/-- Witness for `predict_empty_returns_empty`: the iterator over an empty
sample list yields no batches at all. -/
theorem predict_empty_returns_empty_witness :
    IterYieldsIds (List.range 0) [] ∧
    (mkH3RNNSeqClassifier 256 128 (some 1000) 1 2 "" (1/10) "sgd" "acc"
      [] []).predict 0 [] = ([], []) :=
  ⟨List.Perm.nil,
   predict_empty_returns_empty
     (mkH3RNNSeqClassifier 256 128 (some 1000) 1 2 "" (1/10) "sgd" "acc" [] [])
     [] List.Perm.nil⟩

/-- C10: an output position whose sample identifier is never yielded back
by the iterator keeps its zero initialization: its label entry stays `0`
and its score row stays the all-zero row — `predict` neither fails nor
marks such positions. -/
theorem predict_unseen_keeps_zero (c : H3RNNSeqClassifier) (numSamples : Nat)
    (batches : List Batch) (i : Nat) (hi : i < numSamples)
    (hun : i ∉ batches.flatMap Batch.ids) :
    (c.predict numSamples batches).1.getD i 0 = 0 ∧
    (c.predict numSamples batches).2.getD i [] = List.replicate c.num_classes 0 := by
  rw [predict_eq_foldl_pairs]
  have hall : ∀ p ∈ (batches.flatMap fun b => b.out.zip b.ids), p.2 ≠ i := by
    intro p hp
    obtain ⟨pr, pi⟩ := p
    intro hceq
    apply hun
    rw [List.mem_flatMap] at hp ⊢
    obtain ⟨b, hb, hpb⟩ := hp
    refine ⟨b, hb, ?_⟩
    have hpi : pi ∈ b.ids := (List.of_mem_zip hpb).2
    have hceq2 : pi = i := hceq
    exact hceq2 ▸ hpi
  obtain ⟨h1, h2⟩ := foldl_writePair_untouched
    (batches.flatMap fun b => b.out.zip b.ids)
    (List.replicate numSamples 0,
     List.replicate numSamples (List.replicate c.num_classes 0)) i hall
  constructor
  · rw [List.getD_eq_getElem?_getD, h1]
    simp [List.getElem?_replicate, hi]
  · rw [List.getD_eq_getElem?_getD, h2]
    simp [List.getElem?_replicate, hi]

/-- Witness for `predict_unseen_keeps_zero`: two output positions, the
iterator yields only identifier 0, so position 1 keeps label 0 and an
all-zero score row. -/
theorem predict_unseen_keeps_zero_witness :
    1 < 2 ∧
    (1 ∉ ([{ out := [[3, 4]], ids := [0] }] : List Batch).flatMap Batch.ids) ∧
    (((mkH3RNNSeqClassifier 256 128 (some 1000) 1 2 "" (1/10) "sgd" "acc"
        [] []).predict 2 [{ out := [[3, 4]], ids := [0] }]).1.getD 1 0 = 0 ∧
     ((mkH3RNNSeqClassifier 256 128 (some 1000) 1 2 "" (1/10) "sgd" "acc"
        [] []).predict 2 [{ out := [[3, 4]], ids := [0] }]).2.getD 1 [] =
       List.replicate (mkH3RNNSeqClassifier 256 128 (some 1000) 1 2 "" (1/10)
         "sgd" "acc" [] []).num_classes 0) :=
  ⟨by decide, by decide,
   predict_unseen_keeps_zero
     (mkH3RNNSeqClassifier 256 128 (some 1000) 1 2 "" (1/10) "sgd" "acc" [] [])
     2 [{ out := [[3, 4]], ids := [0] }] 1 (by decide) (by decide)⟩
